import Mathlib

/-!
Shallow embedding of the gamification core of the snappie-api-express
repository: the coin/exp ledger mutators, the check-in/review eligibility
guard, the grant registry and the aggregate recalculator from
`src/services/GamificationService.js`, together with `toggleFollow` from
`src/services/UserService.js` and the review soft-delete / place-statistics
recomputation from the review service.

Modelling conventions:
- Database tables are Lean lists of row structures; `findByPk` becomes
  `List.find?` on the id field; an `UPDATE ... WHERE id = x` becomes a map
  that rewrites the matching rows.
- JS numbers holding integral amounts are `Int`; `avgRating` (DECIMAL(3,2))
  is `Rat`, with `Math.round(x * 100) / 100` embedded exactly.
- JS `Date` values are a `DT` record of calendar fields
  (year, 0-based month, day, hour, minute, second, millisecond); comparison
  of in-range dates is via a strictly monotone linearisation `DT.stamp`,
  which agrees with the numeric ordering of JS `Date` for calendar-valid
  fields.
- Each service method returns the resulting database state together with an
  `Except` outcome.  A Sequelize transaction that rolls back restores the
  state as of transaction start, but statements issued *without* the
  `{ transaction }` option (and nested `sequelize.transaction()` calls that
  commit on their own) take effect on the committed base immediately and
  survive an outer rollback; the definitions below track this distinction
  exactly as the source does.
- Columns that are pure pass-through payload (geolocation, image urls,
  review text, redemption codes) do not influence any control flow or any
  claim and are omitted from the row structures.
-/

namespace Snappie

/-- Error taxonomy: one constructor per distinct `throw new Error(...)` site
reachable in the embedded operations. -/
inductive Err where
  | coinAmountNotPositive      -- 'Coin amount must be greater than 0.'
  | expAmountNotPositive       -- 'EXP amount must be greater than zero.'
  | userNotFound               -- 'User not found'
  | notEnoughCoins             -- 'User does not have enough coins.'
  | placeNotFound              -- 'Place not found'
  | placeNotActive             -- 'This place is currently not active.'
  | alreadyCheckedInThisMonth  -- 'You have already checked in at this place this month.'
  | alreadyReviewedThisMonth   -- 'You have already reviewed this place this month.'
  | userOrAchievementNotFound  -- 'User or achievement not found'
  | alreadyHaveAchievement     -- 'You already have this achievement.'
  | userOrChallengeNotFound    -- 'User or challenge not found'
  | alreadyCompletedChallenge  -- 'You have already completed this challenge.'
  | userOrRewardNotFound       -- 'User or reward not found'
  | koinTidakMencukupi         -- 'Koin tidak mencukupi.'
  | stokHadiahHabis            -- 'Stok hadiah habis.'
  | hadiahTidakAktif           -- 'Hadiah ini tidak aktif.'
  | cannotFollowYourself       -- 'Cannot follow yourself'
  | reviewNotFound             -- 'Review not found'
  | unauthorizedReview         -- 'Unauthorized to delete this review'
  | coinTxnAmountNotNull       -- Sequelize notNull violation: coin_transactions.amount
deriving Repr, DecidableEq

/-- Calendar date-time with JS `Date` field conventions: `month` is 0-based
(January = 0); `ms` is the millisecond component. -/
structure DT where
  year : Nat
  month : Nat
  day : Nat
  hour : Nat
  minute : Nat
  second : Nat
  ms : Nat
deriving Repr, DecidableEq

/-- Linearisation of a date-time; strictly monotone in the lexicographic
field order whenever the fields are in their calendar ranges, hence it
embeds the numeric ordering of JS `Date` values for valid dates. -/
def DT.stamp (d : DT) : Nat :=
  (((((d.year * 12 + d.month) * 32 + d.day) * 24 + d.hour) * 60 + d.minute) * 60
      + d.second) * 1000 + d.ms

/-- Field bounds of a calendar-valid date (day bounded by 31 suffices for
order reasoning). -/
def DT.Valid (d : DT) : Prop :=
  d.month ≤ 11 ∧ 1 ≤ d.day ∧ d.day ≤ 31 ∧ d.hour ≤ 23 ∧ d.minute ≤ 59 ∧
    d.second ≤ 59 ∧ d.ms ≤ 999

instance (d : DT) : Decidable d.Valid := by
  unfold DT.Valid; infer_instance

/-- JS `Date` comparison (`>=` / `<=` on time values) for valid dates. -/
def dtLe (a b : DT) : Bool := a.stamp ≤ b.stamp

/-- Leap-year rule used by JS `Date` month arithmetic. -/
def isLeapYear (y : Nat) : Bool :=
  y % 4 == 0 && (y % 100 != 0 || y % 400 == 0)

/-- Number of days of 0-based month `m` in year `y`; this is the day-of-month
that `new Date(y, m + 1, 0)` normalises to. -/
def daysInMonth (y m : Nat) : Nat :=
  if m = 1 then (if isLeapYear y then 29 else 28)
  else if m = 3 ∨ m = 5 ∨ m = 8 ∨ m = 10 then 30
  else 31

/-- Embedding of `new Date(now.getFullYear(), now.getMonth(), 1)`. -/
def startOfMonth (now : DT) : DT :=
  ⟨now.year, now.month, 1, 0, 0, 0, 0⟩

/-- Embedding of `new Date(now.getFullYear(), now.getMonth() + 1, 0, 23, 59, 59)`:
the last day of the current month at 23:59:59.000. -/
def endOfMonth (now : DT) : DT :=
  ⟨now.year, now.month, daysInMonth now.year now.month, 23, 59, 59, 0⟩

/-- Row of the `users` table (aggregate counters; all default 0). -/
structure UserRow where
  id : Nat
  totalCoin : Int := 0
  totalExp : Int := 0
  totalCheckin : Int := 0
  totalReview : Int := 0
  totalAchievement : Int := 0
  totalChallenge : Int := 0
  totalFollowing : Int := 0
  totalFollower : Int := 0
deriving Repr, DecidableEq

/-- Row of the `places` table (fields relevant to the core).  The field
names are the Sequelize *attribute* names — `coinReward`/`expReward` are
attributes mapped to the `coin_reward`/`exp_reward` columns, so a model
instance exposes only the camel-case properties (`place.coin_reward` is
`undefined` in JS). -/
structure PlaceRow where
  id : Nat
  status : Bool := true
  coinReward : Int := 0
  expReward : Int := 0
  avgRating : Rat := 0
  totalReview : Int := 0
deriving Repr, DecidableEq

/-- Row of the `coin_transactions` ledger table. -/
structure CoinTxnRow where
  user_id : Nat
  amount : Int
  related_to_id : Nat
  related_to_type : String
deriving Repr, DecidableEq

/-- Row of the `exp_transactions` ledger table. -/
structure ExpTxnRow where
  user_id : Nat
  amount : Int
  related_to_id : Nat
  related_to_type : String
deriving Repr, DecidableEq

/-- Row of the `checkins` table. -/
structure CheckinRow where
  id : Nat
  user_id : Nat
  place_id : Nat
  created_at : DT
deriving Repr, DecidableEq

/-- Row of the `reviews` table (`status` is the soft-delete flag). -/
structure ReviewRow where
  id : Nat
  user_id : Nat
  place_id : Nat
  rating : Int
  status : Bool := true
  created_at : DT
deriving Repr, DecidableEq

/-- Row of the `achievements` catalog (`coin_reward` defaults to 0 in the
Sequelize model and has no minimum validator). -/
structure AchievementRow where
  id : Nat
  coin_reward : Int := 0
  status : Bool := true
deriving Repr, DecidableEq

/-- Row of the `challenges` catalog (`exp_reward` defaults to 0). -/
structure ChallengeRow where
  id : Nat
  exp_reward : Int := 0
  status : Bool := true
deriving Repr, DecidableEq

/-- Row of the `rewards` catalog; `stock` is nullable and the model comment
reads 'null means unlimited stock'. -/
structure RewardRow where
  id : Nat
  coin_requirement : Int := 0
  stock : Option Int := none
  status : Bool := true
deriving Repr, DecidableEq

/-- Row of the `user_achievements` pivot table. -/
structure UserAchievementRow where
  user_id : Nat
  achievement_id : Nat
  status : Bool
deriving Repr, DecidableEq

/-- Row of the `user_challenges` pivot table. -/
structure UserChallengeRow where
  user_id : Nat
  challenge_id : Nat
  status : Bool
deriving Repr, DecidableEq

/-- Row of the `user_rewards` pivot table. -/
structure UserRewardRow where
  user_id : Nat
  reward_id : Nat
  status : Bool
deriving Repr, DecidableEq

/-- Row of the `user_follows` table. -/
structure FollowRow where
  follower_id : Nat
  following_id : Nat
deriving Repr, DecidableEq

/-- The committed database state. `nextId` supplies autoincrement ids for
newly created checkins and reviews. -/
structure DB where
  users : List UserRow := []
  places : List PlaceRow := []
  checkins : List CheckinRow := []
  reviews : List ReviewRow := []
  coinTxns : List CoinTxnRow := []
  expTxns : List ExpTxnRow := []
  achievements : List AchievementRow := []
  challenges : List ChallengeRow := []
  rewards : List RewardRow := []
  userAchievements : List UserAchievementRow := []
  userChallenges : List UserChallengeRow := []
  userRewards : List UserRewardRow := []
  userFollows : List FollowRow := []
  nextId : Nat := 1
deriving Repr, DecidableEq

/-- `User.findByPk(user_id)`. -/
def findUser (db : DB) (uid : Nat) : Option UserRow :=
  db.users.find? (fun u => u.id == uid)

/-- `Place.findByPk(place_id)`. -/
def findPlace (db : DB) (pid : Nat) : Option PlaceRow :=
  db.places.find? (fun p => p.id == pid)

/-- `Achievement.findByPk(achievement_id)`. -/
def findAchievement (db : DB) (aid : Nat) : Option AchievementRow :=
  db.achievements.find? (fun a => a.id == aid)

/-- `Challenge.findByPk(challenge_id)`. -/
def findChallenge (db : DB) (cid : Nat) : Option ChallengeRow :=
  db.challenges.find? (fun c => c.id == cid)

/-- `Reward.findByPk(reward_id)`. -/
def findReward (db : DB) (rid : Nat) : Option RewardRow :=
  db.rewards.find? (fun r => r.id == rid)

/-- `Review.findByPk(review_id)`. -/
def findReview (db : DB) (rid : Nat) : Option ReviewRow :=
  db.reviews.find? (fun r => r.id == rid)

/-- An `UPDATE users SET ... WHERE id = uid`, applied as a row rewrite. -/
def updateUser (db : DB) (uid : Nat) (f : UserRow → UserRow) : DB :=
  { db with users := db.users.map (fun u => if u.id == uid then f u else u) }

/-- An `UPDATE places SET ... WHERE id = pid`. -/
def updatePlace (db : DB) (pid : Nat) (f : PlaceRow → PlaceRow) : DB :=
  { db with places := db.places.map (fun p => if p.id == pid then f p else p) }

/-- An `UPDATE rewards SET ... WHERE id = rid`. -/
def updateReward (db : DB) (rid : Nat) (f : RewardRow → RewardRow) : DB :=
  { db with rewards := db.rewards.map (fun r => if r.id == rid then f r else r) }

/-- An `UPDATE reviews SET ... WHERE id = rid`. -/
def updateReview (db : DB) (rid : Nat) (f : ReviewRow → ReviewRow) : DB :=
  { db with reviews := db.reviews.map (fun r => if r.id == rid then f r else r) }

/-- Sum of the signed amounts of a user's coin ledger entries. -/
def coinLedgerSum (txns : List CoinTxnRow) (uid : Nat) : Int :=
  ((txns.filter (fun t => t.user_id == uid)).map (fun t => t.amount)).sum

/-- `GamificationService.addCoins(user_id, amount, relatedObject)`:
rejects non-positive amounts before the transaction, then inside one
transaction increments `totalCoin` and appends one ledger row. -/
def addCoins (db : DB) (uid : Nat) (amount : Int) (rid : Nat) (rtype : String) :
    DB × Except Err CoinTxnRow :=
  if amount ≤ 0 then (db, .error .coinAmountNotPositive)
  else
    match findUser db uid with
    | none => (db, .error .userNotFound)
    | some _ =>
      let txn : CoinTxnRow :=
        { user_id := uid, amount := amount, related_to_id := rid, related_to_type := rtype }
      let db1 := updateUser db uid (fun u => { u with totalCoin := u.totalCoin + amount })
      ({ db1 with coinTxns := db1.coinTxns ++ [txn] }, .ok txn)

/-- The pre-transaction phase of `GamificationService.useCoins`: the user
lookup and the insufficiency check run against a snapshot taken *before*
`sequelize.transaction()` is opened. -/
def useCoinsCheck (db : DB) (uid : Nat) (amount : Int) : Except Err Unit :=
  match findUser db uid with
  | none => .error .userNotFound
  | some u => if u.totalCoin < amount then .error .notEnoughCoins else .ok ()

/-- The in-transaction phase of `useCoins`: an unconditional relative
decrement (`UPDATE users SET total_coin = total_coin - amount`) plus one
negative ledger row. -/
def useCoinsApply (db : DB) (uid : Nat) (amount : Int) (rid : Nat) (rtype : String) :
    DB × CoinTxnRow :=
  let txn : CoinTxnRow :=
    { user_id := uid, amount := -amount, related_to_id := rid, related_to_type := rtype }
  let db1 := updateUser db uid (fun u => { u with totalCoin := u.totalCoin - amount })
  ({ db1 with coinTxns := db1.coinTxns ++ [txn] }, txn)

/-- `GamificationService.useCoins(user_id, amount, relatedObject)`: the
check phase followed, when it passes, by the apply phase. -/
def useCoins (db : DB) (uid : Nat) (amount : Int) (rid : Nat) (rtype : String) :
    DB × Except Err CoinTxnRow :=
  match useCoinsCheck db uid amount with
  | .error e => (db, .error e)
  | .ok _ =>
    let (db1, txn) := useCoinsApply db uid amount rid rtype
    (db1, .ok txn)

/-- `GamificationService.addExp(user_id, amount, relatedObject)`. -/
def addExp (db : DB) (uid : Nat) (amount : Int) (rid : Nat) (rtype : String) :
    DB × Except Err ExpTxnRow :=
  if amount ≤ 0 then (db, .error .expAmountNotPositive)
  else
    match findUser db uid with
    | none => (db, .error .userNotFound)
    | some _ =>
      let txn : ExpTxnRow :=
        { user_id := uid, amount := amount, related_to_id := rid, related_to_type := rtype }
      let db1 := updateUser db uid (fun u => { u with totalExp := u.totalExp + amount })
      ({ db1 with expTxns := db1.expTxns ++ [txn] }, .ok txn)

/-- Rewards part of a successful check-in response. -/
structure CheckinRewards where
  coins_earned : Int
  exp_earned : Int
  new_level : Int
deriving Repr, DecidableEq

/-- Response of a successful `createCheckin`. -/
structure CheckinResult where
  checkin : CheckinRow
  rewards : CheckinRewards
deriving Repr, DecidableEq

/-- The `Checkin.findOne` eligibility query of `createCheckin`: an existing
row for (user, place) with `created_at` between `startOfMonth now` and
`endOfMonth now` inclusive (no status filter in the source query). -/
def hasCheckedInThisMonth (db : DB) (uid pid : Nat) (now : DT) : Bool :=
  db.checkins.any (fun c =>
    c.user_id == uid && c.place_id == pid &&
      dtLe (startOfMonth now) c.created_at && dtLe c.created_at (endOfMonth now))

/-- `GamificationService.createCheckin(user_id, payload)` evaluated at
current time `now`: place lookup, active check, calendar-month eligibility
check, user lookup, checkin insert, user counters update (hard-coded
`coinsEarned = 10`, `expEarned = 5`), one coin and one exp ledger row, all
in one transaction that rolls back on any failure. -/
def createCheckin (db : DB) (uid pid : Nat) (now : DT) :
    DB × Except Err CheckinResult :=
  match findPlace db pid with
  | none => (db, .error .placeNotFound)
  | some place =>
    if !place.status then (db, .error .placeNotActive)
    else if hasCheckedInThisMonth db uid pid now then
      (db, .error .alreadyCheckedInThisMonth)
    else
      match findUser db uid with
      | none => (db, .error .userNotFound)
      | some user =>
        let coinsEarned : Int := 10
        let expEarned : Int := 5
        let checkin : CheckinRow :=
          { id := db.nextId, user_id := uid, place_id := pid, created_at := now }
        let newExpBalance := user.totalExp + expEarned
        let newLevel := Int.fdiv newExpBalance 100 + 1
        let db1 := { db with checkins := db.checkins ++ [checkin], nextId := db.nextId + 1 }
        let db2 := updateUser db1 uid (fun u =>
          { u with totalCoin := user.totalCoin + coinsEarned,
                   totalExp := newExpBalance,
                   totalCheckin := user.totalCheckin + 1 })
        let coinTxn : CoinTxnRow :=
          { user_id := uid, amount := coinsEarned,
            related_to_id := checkin.id, related_to_type := "Checkin" }
        let expTxn : ExpTxnRow :=
          { user_id := uid, amount := expEarned,
            related_to_id := checkin.id, related_to_type := "Checkin" }
        let db3 := { db2 with coinTxns := db2.coinTxns ++ [coinTxn],
                              expTxns := db2.expTxns ++ [expTxn] }
        (db3, .ok { checkin := checkin,
                    rewards := { coins_earned := coinsEarned,
                                 exp_earned := expEarned,
                                 new_level := newLevel } })

/-- `Math.round(x * 100) / 100` on an exact rational. -/
def round2 (q : Rat) : Rat := (⌊q * 100 + 1 / 2⌋ : Rat) / 100

/-- The `Review.findOne` eligibility query of `createReview` (same
calendar-month window as check-ins, again with no status filter). -/
def hasReviewedInThisMonth (db : DB) (uid pid : Nat) (now : DT) : Bool :=
  db.reviews.any (fun r =>
    r.user_id == uid && r.place_id == pid &&
      dtLe (startOfMonth now) r.created_at && dtLe r.created_at (endOfMonth now))

/-- The reward-payout call of `createReview`: the source passes
`place.coin_reward` to `addCoins`, but the Place model's attribute is
`coinReward` (`coin_reward` is only the mapped column name), so the value
passed is JS `undefined`.  Inside `addCoins`, the guard `undefined <= 0`
is false (NaN comparison), so the call proceeds into its own transaction:
the user lookup runs ('User not found' when the user is absent), the
`totalCoin` increment is issued, and then
`CoinTransaction.create({ amount: undefined })` violates the `amount`
column's `allowNull: false`, so the call throws the notNull violation and
its own transaction rolls back — no committed state changes either way. -/
def addCoinsUndefinedAmount (db : DB) (uid : Nat) : Err :=
  match findUser db uid with
  | none => .userNotFound
  | some _ => .coinTxnAmountNotNull

/-- `GamificationService.createReview(user_id, place_id, data)` evaluated at
current time `now`.  The review insert, the two `totalReview` counter
increments, the all-status aggregate recount and the `avgRating` write are
all issued under the outer transaction, but the payout
`this.addCoins(user_id, place.coin_reward, ...)` always throws (see
`addCoinsUndefinedAmount`; `addExp` is never reached), so the outer
transaction always rolls the draft back: every `createReview` call returns
an error and leaves the committed state unchanged (the rating only ever
enters the rolled-back draft). -/
def createReview (db : DB) (uid pid : Nat) (_rating : Int) (now : DT) :
    DB × Except Err ReviewRow :=
  match findPlace db pid with
  | none => (db, .error .placeNotFound)
  | some place =>
    if !place.status then (db, .error .placeNotActive)
    else if hasReviewedInThisMonth db uid pid now then
      (db, .error .alreadyReviewedThisMonth)
    else
      (db, .error (addCoinsUndefinedAmount db uid))

/-- `GamificationService.grantAchievement(user_id, achievement_id)`.
The pivot-row insert runs under the outer transaction, but
`user.increment('totalAchievement')` is issued *without* `{ transaction }`
(autocommitted immediately) and the payout goes through `addCoins`, which
commits its own transaction — both survive an outer rollback. -/
def grantAchievement (db : DB) (uid aid : Nat) :
    DB × Except Err UserAchievementRow :=
  match findUser db uid, findAchievement db aid with
  | some _, some achievement =>
    if db.userAchievements.any (fun r =>
        r.user_id == uid && r.achievement_id == aid && r.status) then
      (db, .error .alreadyHaveAchievement)
    else
      let uaRow : UserAchievementRow :=
        { user_id := uid, achievement_id := aid, status := true }
      -- autocommitted counter increment (no { transaction } option)
      let base1 := updateUser db uid (fun u =>
        { u with totalAchievement := u.totalAchievement + 1 })
      match addCoins base1 uid achievement.coin_reward aid "Achievement" with
      | (base2, .ok _) =>
        ({ base2 with userAchievements := base2.userAchievements ++ [uaRow] }, .ok uaRow)
      | (base2, .error e) =>
        -- outer rollback discards only the pivot row
        (base2, .error e)
  | _, _ => (db, .error .userOrAchievementNotFound)

/-- `GamificationService.completeChallenge(user_id, challenge_id)`; same
transaction structure as `grantAchievement`, with `addExp` as payout. -/
def completeChallenge (db : DB) (uid cid : Nat) :
    DB × Except Err UserChallengeRow :=
  match findUser db uid, findChallenge db cid with
  | some _, some challenge =>
    if db.userChallenges.any (fun r =>
        r.user_id == uid && r.challenge_id == cid && r.status) then
      (db, .error .alreadyCompletedChallenge)
    else
      let ucRow : UserChallengeRow :=
        { user_id := uid, challenge_id := cid, status := true }
      let base1 := updateUser db uid (fun u =>
        { u with totalChallenge := u.totalChallenge + 1 })
      match addExp base1 uid challenge.exp_reward cid "Challenge" with
      | (base2, .ok _) =>
        ({ base2 with userChallenges := base2.userChallenges ++ [ucRow] }, .ok ucRow)
      | (base2, .error e) => (base2, .error e)
  | _, _ => (db, .error .userOrChallengeNotFound)

/-- The JS comparison `reward.stock <= 0`: `null` coerces to `+0`, so a
null stock satisfies the test. -/
def jsStockLeZero (stock : Option Int) : Bool :=
  match stock with
  | none => true
  | some s => s ≤ 0

/-- The SQL relative decrement `stock = stock - 1` of
`reward.decrement('stock')`; NULL - 1 is NULL. -/
def decStock (stock : Option Int) : Option Int := stock.map (· - 1)

/-- `GamificationService.redeemReward(user_id, reward_id)`.  Validations run
under the outer transaction; the coin deduction goes through `useCoins`
(own committed transaction) and `reward.decrement('stock')` is issued
without `{ transaction }` (autocommitted); only the `user_rewards` insert
is governed by the outer transaction. -/
def redeemReward (db : DB) (uid rid : Nat) :
    DB × Except Err UserRewardRow :=
  match findUser db uid, findReward db rid with
  | some user, some reward =>
    if user.totalCoin < reward.coin_requirement then (db, .error .koinTidakMencukupi)
    else if jsStockLeZero reward.stock then (db, .error .stokHadiahHabis)
    else if !reward.status then (db, .error .hadiahTidakAktif)
    else
      match useCoins db uid reward.coin_requirement rid "Reward" with
      | (base1, .error e) => (base1, .error e)
      | (base1, .ok _) =>
        let base2 := updateReward base1 rid (fun r => { r with stock := decStock r.stock })
        let urRow : UserRewardRow := { user_id := uid, reward_id := rid, status := true }
        ({ base2 with userRewards := base2.userRewards ++ [urRow] }, .ok urRow)
  | _, _ => (db, .error .userOrRewardNotFound)

/-- Response of `UserService.toggleFollow`. -/
structure ToggleFollowResult where
  isFollowing : Bool
  followerCount : Int
  followingCount : Int
deriving Repr, DecidableEq

/-- `UserService.toggleFollow(followerId, followingId)`.  The counter writes
clamp at 0 on unfollow; `instance.update` mutates the in-memory Sequelize
instances, so the return expression `following.totalFollower ± 1` reads the
freshly *updated* values, not the values loaded before the update. -/
def toggleFollow (db : DB) (followerId followingId : Nat) :
    DB × Except Err ToggleFollowResult :=
  if followerId == followingId then (db, .error .cannotFollowYourself)
  else
    match findUser db followerId, findUser db followingId with
    | some follower, some following =>
      if db.userFollows.any (fun f =>
          f.follower_id == followerId && f.following_id == followingId) then
        -- unfollow: destroy the row, clamp the counters at 0
        let newFollowing := max 0 (follower.totalFollowing - 1)
        let newFollower := max 0 (following.totalFollower - 1)
        let db1 := { db with userFollows := db.userFollows.filter (fun f =>
          !(f.follower_id == followerId && f.following_id == followingId)) }
        let db2 := updateUser db1 followerId (fun u => { u with totalFollowing := newFollowing })
        let db3 := updateUser db2 followingId (fun u => { u with totalFollower := newFollower })
        (db3, .ok { isFollowing := false,
                    followerCount := newFollower - 1,
                    followingCount := newFollowing - 1 })
      else
        let db1 := { db with userFollows := db.userFollows ++
          [{ follower_id := followerId, following_id := followingId }] }
        let db2 := updateUser db1 followerId (fun u =>
          { u with totalFollowing := follower.totalFollowing + 1 })
        let db3 := updateUser db2 followingId (fun u =>
          { u with totalFollower := following.totalFollower + 1 })
        (db3, .ok { isFollowing := true,
                    followerCount := (following.totalFollower + 1) + 1,
                    followingCount := (follower.totalFollowing + 1) + 1 })
    | _, _ => (db, .error .userNotFound)

/-- The review service's `updatePlaceStatistics(placeId)`: AVG(rating) and
COUNT(id) over `reviews WHERE place_id = pid AND status = true`
(`parseFloat(null) || 0` yields 0 when no active review remains), written
to the place row rounded to two decimals. -/
def updatePlaceStatistics (db : DB) (pid : Nat) : DB :=
  let rows := db.reviews.filter (fun r => r.place_id == pid && r.status)
  let total : Int := (rows.map (fun r => r.rating)).sum
  let avgRating : Rat :=
    if 0 < rows.length then (total : Rat) / (rows.length : Rat)
    else 0
  updatePlace db pid (fun p =>
    { p with avgRating := round2 avgRating, totalReview := (rows.length : Int) })

/-- The review service's `deleteReview(reviewId, userId)`: soft delete
(`status := false`) guarded by ownership, followed by place-statistics
recomputation. -/
def deleteReview (db : DB) (reviewId userId : Nat) : DB × Except Err Bool :=
  match findReview db reviewId with
  | none => (db, .error .reviewNotFound)
  | some review =>
    if review.user_id ≠ userId then (db, .error .unauthorizedReview)
    else
      let db1 := updateReview db reviewId (fun r => { r with status := false })
      (updatePlaceStatistics db1 review.place_id, .ok true)

/-- The database state a successful `createCheckin` commits, given the user
row `u` it loaded: checkin row appended, the user's counters overwritten
from `u`, and one coin and one exp ledger row appended. -/
def checkinPost (db : DB) (uid pid : Nat) (now : DT) (u : UserRow) : DB :=
  { updateUser { db with checkins := db.checkins ++ [⟨db.nextId, uid, pid, now⟩],
                         nextId := db.nextId + 1 } uid
        (fun w => { w with totalCoin := u.totalCoin + 10, totalExp := u.totalExp + 5,
                           totalCheckin := u.totalCheckin + 1 }) with
    coinTxns := db.coinTxns ++ [⟨uid, 10, db.nextId, "Checkin"⟩],
    expTxns := db.expTxns ++ [⟨uid, 5, db.nextId, "Checkin"⟩] }

/-- A call into the Balance Mutator: one `addCoins` or `useCoins` invocation
with its arguments. -/
inductive CoinOp where
  | add (uid : Nat) (amount : Int) (rid : Nat) (rtype : String)
  | use (uid : Nat) (amount : Int) (rid : Nat) (rtype : String)
deriving Repr, DecidableEq

/-- The state reached after one mutator call (failed calls leave the state
unchanged, which the mutators already guarantee by returning the input
state alongside the error). -/
def applyCoinOp (db : DB) (op : CoinOp) : DB :=
  match op with
  | .add uid amount rid rtype => (addCoins db uid amount rid rtype).1
  | .use uid amount rid rtype => (useCoins db uid amount rid rtype).1

/-- The state after a sequence of mutator calls. -/
def runCoinOps (db : DB) (ops : List CoinOp) : DB :=
  ops.foldl applyCoinOp db

/-- Balance/ledger agreement for one user: every `users` row carrying this
id holds exactly the sum of the signed amounts of the user's coin ledger
entries. -/
def UserCoinInv (db : DB) (uid : Nat) : Prop :=
  ∀ u ∈ db.users, u.id = uid → u.totalCoin = coinLedgerSum db.coinTxns uid

/-- Number of active grant rows recorded for a (user, achievement) pair. -/
def countActiveGrants (db : DB) (uid aid : Nat) : Nat :=
  (db.userAchievements.filter (fun r =>
    r.user_id == uid && r.achievement_id == aid && r.status)).length

/-- The database state a successful `grantAchievement` commits, for the
achievement row `a`: the autocommitted counter increment, the payout
transaction, and the pivot row of the outer commit. -/
def grantPost (db : DB) (uid aid : Nat) (a : AchievementRow) : DB :=
  let base1 := updateUser db uid (fun w =>
    { w with totalAchievement := w.totalAchievement + 1 })
  let base2 : DB :=
    { updateUser base1 uid (fun w => { w with totalCoin := w.totalCoin + a.coin_reward }) with
      coinTxns := base1.coinTxns ++ [⟨uid, a.coin_reward, aid, "Achievement"⟩] }
  { base2 with userAchievements := base2.userAchievements ++ [⟨uid, aid, true⟩] }

/-! Concrete inputs used by witnesses and counterexamples. -/

/-- A user holding 10 coins, for the interleaved-spend counterexample. -/
def dbSpend : DB := { users := [{ id := 1, totalCoin := 10 }] }

/-- The database state visible after the first spend's in-transaction
decrement has been applied. -/
def dbSpendMid : DB := (useCoinsApply dbSpend 1 10 9 "Reward").1

/-- A checkin created within the last 999 milliseconds of January 2025 —
inside the calendar month but past the query's upper bound of 23:59:59.000. -/
def lateCheckin : CheckinRow := ⟨5, 1, 1, ⟨2025, 0, 31, 23, 59, 59, 500⟩⟩

/-- Database for the month-boundary counterexample: one active place and the
late-January checkin by user 1. -/
def dbMonthEdge : DB :=
  { users := [{ id := 1 }],
    places := [{ id := 1, coinReward := 7, expReward := 3 }],
    checkins := [lateCheckin],
    nextId := 6 }

/-- Current time a few hundred milliseconds after `lateCheckin`, still in
January 2025. -/
def nowMonthEdge : DT := ⟨2025, 0, 31, 23, 59, 59, 600⟩

/-- Database with a mid-January checkin by user 1 at place 1. -/
def dbMonthMid : DB :=
  { users := [{ id := 1 }],
    places := [{ id := 1, coinReward := 7, expReward := 3 }],
    checkins := [⟨5, 1, 1, ⟨2025, 0, 10, 8, 0, 0, 0⟩⟩],
    nextId := 6 }

/-- A time later in the same January 2025. -/
def nowJanLater : DT := ⟨2025, 0, 20, 9, 30, 0, 0⟩

/-- A time in the following calendar month (February 2025). -/
def nowFebruary : DT := ⟨2025, 1, 10, 0, 0, 0, 0⟩

/-- Database with a coin ledger already recorded for user 1, used to witness
the balance-conservation theorem. -/
def dbLedger : DB :=
  { users := [{ id := 1, totalCoin := 7 }],
    coinTxns := [{ user_id := 1, amount := 9, related_to_id := 3, related_to_type := "Checkin" },
                 { user_id := 1, amount := -2, related_to_id := 4, related_to_type := "Reward" }] }

/-- Database for the grant-idempotency witness: user 1 and an achievement
paying 5 coins. -/
def dbGrant : DB :=
  { users := [{ id := 1 }], achievements := [{ id := 2, coin_reward := 5 }] }

/-- Database for the grant-rollback failing input: user 1 and an achievement
whose `coin_reward` is 0 — the Sequelize model's default value. -/
def dbGrantZero : DB :=
  { users := [{ id := 1 }], achievements := [{ id := 2 }] }

/-- Counterpart failing input for `completeChallenge`: `exp_reward` 0, the
Challenge model's default. -/
def dbChallengeZero : DB :=
  { users := [{ id := 1 }], challenges := [{ id := 3 }] }

/-- Database for the rating counterexample: the place carries one
soft-deleted (status = false) review rated 3 from an earlier month. -/
def dbInactiveReview : DB :=
  { users := [{ id := 1 }],
    places := [{ id := 1, coinReward := 7, expReward := 3 }],
    reviews := [{ id := 5, user_id := 2, place_id := 1, rating := 3, status := false,
                  created_at := ⟨2024, 5, 1, 0, 0, 0, 0⟩ }],
    nextId := 6 }

/-- Current time used by the review examples. -/
def nowReview : DT := ⟨2025, 0, 15, 12, 0, 0, 0⟩

/-- Database realising the spec's rating scenario: three active reviews
rated 4, 5 and 3 for place 1. -/
def dbRatingScenario : DB :=
  { users := [{ id := 1 }, { id := 2 }, { id := 3 }],
    places := [{ id := 1, coinReward := 7, expReward := 3 }],
    reviews := [{ id := 11, user_id := 1, place_id := 1, rating := 4, created_at := nowReview },
                { id := 12, user_id := 2, place_id := 1, rating := 5, created_at := nowReview },
                { id := 13, user_id := 3, place_id := 1, rating := 3, created_at := nowReview }],
    nextId := 14 }

/-- Database for the null-stock failing input: a rich user and an active
reward with `stock = null` ('null means unlimited stock'). -/
def dbNullStock : DB :=
  { users := [{ id := 1, totalCoin := 100 }],
    rewards := [{ id := 2, coin_requirement := 50, stock := none, status := true }] }

/-- Database for the check-in reward witness: user 1 with zero coins and an
active place (whose configured rewards are deliberately different from
10/5). -/
def dbZeroCoins : DB :=
  { users := [{ id := 1 }],
    places := [{ id := 1, coinReward := 10, expReward := 20 }] }

/-- Database for the follow-counter examples: user 1 follows user 2, whose
stored `totalFollower` is 5. -/
def dbFollowers : DB :=
  { users := [{ id := 1, totalFollowing := 3 }, { id := 2, totalFollower := 5 }],
    userFollows := [⟨1, 2⟩] }

/-- Variant with the target's stored `totalFollower` already 0. -/
def dbFollowersZero : DB :=
  { users := [{ id := 1, totalFollowing := 3 }, { id := 2, totalFollower := 0 }],
    userFollows := [⟨1, 2⟩] }

/-- Variant with no follow row yet (for the follow branch). -/
def dbNoFollow : DB :=
  { users := [{ id := 1, totalFollowing := 3 }, { id := 2, totalFollower := 5 }] }

/-- Decidable equality of operation outcomes. -/
instance {ε α : Type} [DecidableEq ε] [DecidableEq α] : DecidableEq (Except ε α) := fun a b =>
  match a, b with
  | .error e, .error f => decidable_of_iff (e = f) (by simp)
  | .ok x, .ok y => decidable_of_iff (x = y) (by simp)
  | .error _, .ok _ => isFalse (fun h => Except.noConfusion h)
  | .ok _, .error _ => isFalse (fun h => Except.noConfusion h)

/-! Helper lemmas. -/

/-- Finding by id commutes with an id-preserving rewrite of matching rows. -/
theorem find_map_if {α : Type} (idf : α → Nat) (l : List α) (v uid : Nat) (f : α → α)
    (hf : ∀ a, idf (f a) = idf a) :
    (l.map (fun a => if idf a == uid then f a else a)).find? (fun a => idf a == v) =
      (l.find? (fun a => idf a == v)).map (fun a => if idf a == uid then f a else a) := by
  induction l with
  | nil => rfl
  | cons a l ih =>
    have hid : idf (if idf a == uid then f a else a) = idf a := by
      split <;> simp [hf]
    by_cases hv : idf a = v
    · rw [List.map_cons,
        List.find?_cons_of_pos _ (by rw [hid]; simp [hv]),
        List.find?_cons_of_pos _ (by simp [hv])]
      simp
    · rw [List.map_cons,
        List.find?_cons_of_neg _ (by rw [hid]; simp [hv]),
        List.find?_cons_of_neg _ (by simp [hv])]
      exact ih

/-- `findUser` after `updateUser`. -/
theorem findUser_updateUser (db : DB) (uid v : Nat) (f : UserRow → UserRow)
    (hf : ∀ u, (f u).id = u.id) :
    findUser (updateUser db uid f) v =
      (findUser db v).map (fun u => if u.id == uid then f u else u) :=
  find_map_if UserRow.id db.users v uid f hf

/-- `findPlace` after `updatePlace`. -/
theorem findPlace_updatePlace (db : DB) (pid v : Nat) (f : PlaceRow → PlaceRow)
    (hf : ∀ p, (f p).id = p.id) :
    findPlace (updatePlace db pid f) v =
      (findPlace db v).map (fun p => if p.id == pid then f p else p) :=
  find_map_if PlaceRow.id db.places v pid f hf

/-- A `find?` hit satisfies its predicate: the row found by id carries that
id. -/
theorem findUser_id {db : DB} {v : Nat} {u : UserRow} (h : findUser db v = some u) :
    u.id = v := by
  have := List.find?_some h
  simpa using this

/-- Success characterisation of `addCoins`. -/
theorem addCoins_ok_elim {db db' : DB} {uid : Nat} {amount : Int} {rid : Nat}
    {rtype : String} {txn : CoinTxnRow}
    (h : addCoins db uid amount rid rtype = (db', .ok txn)) :
    0 < amount ∧ (findUser db uid).isSome = true ∧
      txn = ⟨uid, amount, rid, rtype⟩ ∧
      db' = { updateUser db uid (fun u => { u with totalCoin := u.totalCoin + amount }) with
              coinTxns := db.coinTxns ++ [txn] } := by
  unfold addCoins at h
  split at h
  · exact absurd h (by simp)
  next hpos =>
    cases hf : findUser db uid with
    | none => rw [hf] at h; exact absurd h (by simp)
    | some u =>
      rw [hf] at h
      obtain ⟨h1, h2⟩ := Prod.mk.injEq .. ▸ h
      obtain rfl := (Except.ok.injEq .. ▸ h2).symm
      exact ⟨by omega, by simp [hf], rfl, h1.symm⟩

/-- Success characterisation of `addExp`. -/
theorem addExp_ok_elim {db db' : DB} {uid : Nat} {amount : Int} {rid : Nat}
    {rtype : String} {txn : ExpTxnRow}
    (h : addExp db uid amount rid rtype = (db', .ok txn)) :
    0 < amount ∧ (findUser db uid).isSome = true ∧
      txn = ⟨uid, amount, rid, rtype⟩ ∧
      db' = { updateUser db uid (fun u => { u with totalExp := u.totalExp + amount }) with
              expTxns := db.expTxns ++ [txn] } := by
  unfold addExp at h
  split at h
  · exact absurd h (by simp)
  next hpos =>
    cases hf : findUser db uid with
    | none => rw [hf] at h; exact absurd h (by simp)
    | some u =>
      rw [hf] at h
      obtain ⟨h1, h2⟩ := Prod.mk.injEq .. ▸ h
      obtain rfl := (Except.ok.injEq .. ▸ h2).symm
      exact ⟨by omega, by simp [hf], rfl, h1.symm⟩

/-- Success characterisation of `useCoins`: the pre-check passed against the
input snapshot and the in-transaction phase was applied to it. -/
theorem useCoins_ok_elim {db db' : DB} {uid : Nat} {amount : Int} {rid : Nat}
    {rtype : String} {txn : CoinTxnRow}
    (h : useCoins db uid amount rid rtype = (db', .ok txn)) :
    useCoinsCheck db uid amount = .ok () ∧
      txn = ⟨uid, -amount, rid, rtype⟩ ∧
      db' = { updateUser db uid (fun u => { u with totalCoin := u.totalCoin - amount }) with
              coinTxns := db.coinTxns ++ [txn] } := by
  unfold useCoins at h
  cases hc : useCoinsCheck db uid amount with
  | error e => rw [hc] at h; exact absurd h (by simp)
  | ok v =>
    rw [hc] at h
    obtain ⟨h1, h2⟩ := Prod.mk.injEq .. ▸ h
    obtain rfl := (Except.ok.injEq .. ▸ h2).symm
    exact ⟨by cases v; rfl, rfl, h1.symm⟩

/-! Counterexamples and failing-input evaluations. -/

/-- Claim C2, counterexample: the insufficiency check of `useCoins` runs
before `sequelize.transaction()` against a committed snapshot, and the
in-transaction phase is an unconditional relative decrement; so two
interleaved spends of 10 against a balance of 10 both pass their check
(both read the same pre-commit snapshot `dbSpend`) and their applied
decrements drive the stored balance to −10 < 0 — refuting the claim that
the re-validation happens inside the mutator's transaction so the balance
can never go below zero. -/
theorem claim_C2_counterexample :
    useCoinsCheck dbSpend 1 10 = .ok () ∧
    (findUser (useCoinsApply dbSpendMid 1 10 9 "Reward").1 1).map UserRow.totalCoin
      = some (-10) ∧
    (-10 : Int) < 0 := by decide

/-- Claim C3, counterexample: a checkin created at 23:59:59.500 on the last
day of January 2025 lies inside the calendar month of the current time
(23:59:59.600 the same day), yet `createCheckin` succeeds and creates a
second same-month checkin, because the query's upper bound is the last day
at 23:59:59.000. -/
theorem claim_C3_counterexample :
    lateCheckin ∈ dbMonthEdge.checkins ∧
    lateCheckin.user_id = 1 ∧ lateCheckin.place_id = 1 ∧
    lateCheckin.created_at.year = nowMonthEdge.year ∧
    lateCheckin.created_at.month = nowMonthEdge.month ∧
    (createCheckin dbMonthEdge 1 1 nowMonthEdge).2 =
      .ok ⟨⟨6, 1, 1, nowMonthEdge⟩, ⟨10, 5, 1⟩⟩ := by decide

/-- Claim C5, failing-input evaluation: granting an achievement whose
`coin_reward` is 0 (the Sequelize model's default) makes the payout throw
after `user.increment('totalAchievement')` — issued without
`{ transaction }` — has already autocommitted; the grant row is rolled
back but the counter increment survives, so the operation is not atomic on
error.  The same leak occurs in `completeChallenge` with `totalChallenge`. -/
theorem claim_C5_partial_state_eval :
    (grantAchievement dbGrantZero 1 2).2 = .error .coinAmountNotPositive ∧
    ((grantAchievement dbGrantZero 1 2).1).userAchievements = [] ∧
    ((grantAchievement dbGrantZero 1 2).1).coinTxns = [] ∧
    (findUser (grantAchievement dbGrantZero 1 2).1 1).map UserRow.totalAchievement
      = some 1 ∧
    (completeChallenge dbChallengeZero 1 3).2 = .error .expAmountNotPositive ∧
    ((completeChallenge dbChallengeZero 1 3).1).userChallenges = [] ∧
    (findUser (completeChallenge dbChallengeZero 1 3).1 1).map UserRow.totalChallenge
      = some 1 := by decide

/-- Claim C7, failing-input evaluation: an active reward with `stock = null`
('null means unlimited stock' per the model) is rejected with the
out-of-stock error even though the user holds plenty of coins, because the
JS guard `reward.stock <= 0` coerces `null` to 0. -/
theorem claim_C7_null_stock_eval :
    (findReward dbNullStock 2).map RewardRow.stock = some none ∧
    (findReward dbNullStock 2).map RewardRow.status = some true ∧
    (findReward dbNullStock 2).map RewardRow.coin_requirement = some 50 ∧
    (findUser dbNullStock 1).map UserRow.totalCoin = some 100 ∧
    redeemReward dbNullStock 1 2 = (dbNullStock, .error .stokHadiahHabis) := by decide

/-- Claim C10, counterexample: unfollowing a user whose stored
`totalFollower` is 5 returns `followerCount = 3`, not the 4 that computing
from the counter values read before the update would give (the stored
counter is 4): the return expression re-applies the −1 to the instance
value already mutated by `update`. -/
theorem claim_C10_counterexample :
    (findUser dbFollowers 2).map UserRow.totalFollower = some 5 ∧
    (toggleFollow dbFollowers 1 2).2 = .ok ⟨false, 3, 1⟩ ∧
    (findUser (toggleFollow dbFollowers 1 2).1 2).map UserRow.totalFollower = some 4 ∧
    (3 : Int) ≠ 5 - 1 := by decide

/-- Claim C2 (amended): `useCoins` validates the balance as a pre-check
*before* opening its transaction, not as an in-transaction re-validation:
a single call with `amount` greater than the user's `totalCoin` fails with
the insufficient-funds error and returns the state unchanged, and whenever
the pre-check passes on the snapshot it read, the transaction phase applies
the decrement and ledger append unconditionally (which is why interleaved
spends whose pre-checks read the same snapshot can drive the balance
negative). -/
theorem claim_C2_amended :
    (∀ (db : DB) (uid : Nat) (amount : Int) (rid : Nat) (rtype : String) (u : UserRow),
      findUser db uid = some u → u.totalCoin < amount →
      useCoins db uid amount rid rtype = (db, .error .notEnoughCoins)) ∧
    (∀ (db : DB) (uid : Nat) (amount : Int) (rid : Nat) (rtype : String),
      useCoinsCheck db uid amount = .ok () →
      useCoins db uid amount rid rtype =
        ((useCoinsApply db uid amount rid rtype).1,
          .ok (useCoinsApply db uid amount rid rtype).2)) := by
  constructor
  · intro db uid amount rid rtype u hu hlt
    unfold useCoins useCoinsCheck
    rw [hu]
    simp [hlt]
  · intro db uid amount rid rtype hok
    unfold useCoins
    rw [hok]

/-- Concrete instantiation of the amended C2 theorem: spending 11 against a
balance of 10 fails and leaves the state unchanged; spending 10 passes the
pre-check and applies the transaction phase. -/
theorem claim_C2_witness :
    useCoins dbSpend 1 11 9 "Reward" = (dbSpend, .error .notEnoughCoins) ∧
    useCoins dbSpend 1 10 9 "Reward" =
      ((useCoinsApply dbSpend 1 10 9 "Reward").1,
        .ok (useCoinsApply dbSpend 1 10 9 "Reward").2) :=
  ⟨claim_C2_amended.1 dbSpend 1 11 9 "Reward" { id := 1, totalCoin := 10 } (by rfl)
      (by decide),
    claim_C2_amended.2 dbSpend 1 10 9 "Reward" (by rfl)⟩

/-- Ledger sums split over appends. -/
theorem coinLedgerSum_append (t1 t2 : List CoinTxnRow) (uid : Nat) :
    coinLedgerSum (t1 ++ t2) uid = coinLedgerSum t1 uid + coinLedgerSum t2 uid := by
  simp [coinLedgerSum, List.filter_append]

/-- Ledger sum of a single entry. -/
theorem coinLedgerSum_singleton (t : CoinTxnRow) (uid : Nat) :
    coinLedgerSum [t] uid = if t.user_id = uid then t.amount else 0 := by
  by_cases h : t.user_id = uid <;> simp [coinLedgerSum, List.filter_cons, h]

/-- `addCoins` preserves the balance/ledger agreement of every user. -/
theorem userCoinInv_addCoins (db : DB) (target uid : Nat) (amount : Int) (rid : Nat)
    (rtype : String) (h : UserCoinInv db target) :
    UserCoinInv (addCoins db uid amount rid rtype).1 target := by
  unfold addCoins
  split
  · exact h
  cases hf : findUser db uid with
  | none => simp only [hf]; exact h
  | some u0 =>
    simp only [hf]
    intro x hx hxid
    dsimp only [updateUser] at hx hxid ⊢
    obtain ⟨w, hw, rfl⟩ := List.mem_map.mp hx
    rw [coinLedgerSum_append, coinLedgerSum_singleton]
    by_cases hcase : w.id = uid
    · simp only [show (w.id == uid) = true from by simp [hcase], if_true] at hxid ⊢
      have huid : uid = target := by
        simpa [hcase] using hxid
      have hbal := h w hw (by omega)
      simp [huid, hbal]
    · simp only [show (w.id == uid) = false from by simp [hcase], Bool.false_eq_true,
        if_false] at hxid ⊢
      have hbal := h w hw hxid
      have : uid ≠ target := by omega
      simp [this, hbal]

/-- `useCoins` preserves the balance/ledger agreement of every user. -/
theorem userCoinInv_useCoins (db : DB) (target uid : Nat) (amount : Int) (rid : Nat)
    (rtype : String) (h : UserCoinInv db target) :
    UserCoinInv (useCoins db uid amount rid rtype).1 target := by
  unfold useCoins
  cases hc : useCoinsCheck db uid amount with
  | error e => exact h
  | ok v =>
    intro x hx hxid
    dsimp only [useCoinsApply, updateUser] at hx hxid ⊢
    obtain ⟨w, hw, rfl⟩ := List.mem_map.mp hx
    rw [coinLedgerSum_append, coinLedgerSum_singleton]
    by_cases hcase : w.id = uid
    · simp only [show (w.id == uid) = true from by simp [hcase], if_true] at hxid ⊢
      have huid : uid = target := by simpa [hcase] using hxid
      have hbal := h w hw (by omega)
      simp only [huid, if_true, reduceIte]
      omega
    · simp only [show (w.id == uid) = false from by simp [hcase], Bool.false_eq_true,
        if_false] at hxid ⊢
      have hbal := h w hw hxid
      have hne : uid ≠ target := by omega
      simp [hne, hbal]

/-- Every sequence of Balance Mutator calls preserves the balance/ledger
agreement. -/
theorem userCoinInv_runCoinOps (ops : List CoinOp) (db : DB) (target : Nat)
    (h : UserCoinInv db target) : UserCoinInv (runCoinOps db ops) target := by
  induction ops generalizing db with
  | nil => exact h
  | cons op ops ih =>
    cases op with
    | add uid amount rid rtype =>
      exact ih _ (userCoinInv_addCoins db target uid amount rid rtype h)
    | use uid amount rid rtype =>
      exact ih _ (userCoinInv_useCoins db target uid amount rid rtype h)

/-- Success of the `useCoins` pre-check means the user was found with a
sufficient snapshot balance. -/
theorem useCoinsCheck_ok_elim {db : DB} {uid : Nat} {amount : Int}
    (h : useCoinsCheck db uid amount = .ok ()) :
    ∃ u, findUser db uid = some u ∧ ¬ u.totalCoin < amount := by
  unfold useCoinsCheck at h
  cases hf : findUser db uid with
  | none => rw [hf] at h; exact absurd h (by simp)
  | some u =>
    rw [hf] at h
    refine ⟨u, rfl, ?_⟩
    by_cases hlt : u.totalCoin < amount
    · exact absurd h (by simp [hlt])
    · exact hlt

/-- Claim C1: starting from a user whose `totalCoin` equals the sum of the
signed amounts of their coin ledger entries, every sequence of Balance
Mutator calls preserves that agreement, and each successful `addCoins`
(resp. `useCoins`) call appends exactly one ledger entry whose signed
amount `+amount` (resp. `-amount`) matches the delta applied to the user's
`totalCoin`. -/
theorem claim_C1_balance_conservation :
    ∀ (db : DB) (target : Nat) (ops : List CoinOp),
      UserCoinInv db target →
      UserCoinInv (runCoinOps db ops) target ∧
      (∀ (uid : Nat) (amount : Int) (rid : Nat) (rtype : String) (db' : DB) (txn : CoinTxnRow),
        addCoins db uid amount rid rtype = (db', .ok txn) →
        db'.coinTxns = db.coinTxns ++ [txn] ∧ txn.user_id = uid ∧ txn.amount = amount ∧
        (findUser db' uid).map UserRow.totalCoin
          = (findUser db uid).map (fun u => u.totalCoin + amount)) ∧
      (∀ (uid : Nat) (amount : Int) (rid : Nat) (rtype : String) (db' : DB) (txn : CoinTxnRow),
        useCoins db uid amount rid rtype = (db', .ok txn) →
        db'.coinTxns = db.coinTxns ++ [txn] ∧ txn.user_id = uid ∧ txn.amount = -amount ∧
        (findUser db' uid).map UserRow.totalCoin
          = (findUser db uid).map (fun u => u.totalCoin - amount)) := by
  intro db target ops hinv
  refine ⟨userCoinInv_runCoinOps ops db target hinv, ?_, ?_⟩
  · intro uid amount rid rtype db' txn h
    obtain ⟨hpos, hsome, htxn, hdb⟩ := addCoins_ok_elim h
    subst hdb; subst htxn
    obtain ⟨u, hu⟩ := Option.isSome_iff_exists.mp hsome
    have hid := findUser_id hu
    refine ⟨rfl, rfl, rfl, ?_⟩
    show (findUser (updateUser db uid
        (fun w => { w with totalCoin := w.totalCoin + amount })) uid).map UserRow.totalCoin
      = (findUser db uid).map (fun u => u.totalCoin + amount)
    rw [findUser_updateUser db uid uid
        (fun w => { w with totalCoin := w.totalCoin + amount }) (fun w => rfl), hu]
    simp [hid]
  · intro uid amount rid rtype db' txn h
    obtain ⟨hchk, htxn, hdb⟩ := useCoins_ok_elim h
    subst hdb; subst htxn
    obtain ⟨u, hu, _⟩ := useCoinsCheck_ok_elim hchk
    have hid := findUser_id hu
    refine ⟨rfl, rfl, rfl, ?_⟩
    show (findUser (updateUser db uid
        (fun w => { w with totalCoin := w.totalCoin - amount })) uid).map UserRow.totalCoin
      = (findUser db uid).map (fun u => u.totalCoin - amount)
    rw [findUser_updateUser db uid uid
        (fun w => { w with totalCoin := w.totalCoin - amount }) (fun w => rfl), hu]
    simp [hid]

/-- Mutator call sequence used to witness the conservation theorem. -/
def opsLedger : List CoinOp :=
  [.add 1 5 9 "Achievement", .use 1 3 2 "Reward", .use 1 100 2 "Reward",
   .add 2 4 9 "Checkin", .add 1 0 9 "Checkin"]

/-- Concrete instantiation of the conservation theorem on `dbLedger`
(balance 7 = 9 − 2) and `opsLedger` (a successful add and spend, a spend
that exceeds the balance, a call for an absent user and a zero-amount
add). -/
theorem claim_C1_witness :
    UserCoinInv (runCoinOps dbLedger opsLedger) 1 ∧
    (∀ (uid : Nat) (amount : Int) (rid : Nat) (rtype : String) (db' : DB) (txn : CoinTxnRow),
      addCoins dbLedger uid amount rid rtype = (db', .ok txn) →
      db'.coinTxns = dbLedger.coinTxns ++ [txn] ∧ txn.user_id = uid ∧ txn.amount = amount ∧
      (findUser db' uid).map UserRow.totalCoin
        = (findUser dbLedger uid).map (fun u => u.totalCoin + amount)) ∧
    (∀ (uid : Nat) (amount : Int) (rid : Nat) (rtype : String) (db' : DB) (txn : CoinTxnRow),
      useCoins dbLedger uid amount rid rtype = (db', .ok txn) →
      db'.coinTxns = dbLedger.coinTxns ++ [txn] ∧ txn.user_id = uid ∧ txn.amount = -amount ∧
      (findUser db' uid).map UserRow.totalCoin
        = (findUser dbLedger uid).map (fun u => u.totalCoin - amount)) :=
  claim_C1_balance_conservation dbLedger 1 opsLedger (by unfold UserCoinInv; decide)

/-- A calendar-valid date of an earlier (year, month) precedes the first
instant of the current month. -/
theorem stamp_lt_startOfMonth {d n : DT} (hv : d.Valid)
    (h : d.year < n.year ∨ (d.year = n.year ∧ d.month < n.month)) :
    d.stamp < (startOfMonth n).stamp := by
  obtain ⟨h1, h2, h3, h4, h5, h6, h7⟩ := hv
  unfold DT.stamp startOfMonth
  dsimp only
  rcases h with h | ⟨he, hm⟩
  · omega
  · rw [he]; omega

/-- Successful-path equation for `createCheckin`: with the place found and
active, no same-window checkin and the user found, the operation returns
the fully updated state and the hard-coded rewards. -/
theorem createCheckin_ok_intro {db : DB} {uid pid : Nat} {now : DT} {p : PlaceRow}
    {u : UserRow} (hpl : findPlace db pid = some p) (hact : p.status = true)
    (hno : hasCheckedInThisMonth db uid pid now = false)
    (hu : findUser db uid = some u) :
    createCheckin db uid pid now =
      (checkinPost db uid pid now u,
        .ok ⟨⟨db.nextId, uid, pid, now⟩, ⟨10, 5, Int.fdiv (u.totalExp + 5) 100 + 1⟩⟩) := by
  unfold createCheckin
  rw [hpl]
  simp only [hact, Bool.not_true, Bool.false_eq_true, if_false, hno, hu]
  rfl

/-- Success of `createCheckin` determines every component of the result. -/
theorem createCheckin_ok_elim {db db' : DB} {uid pid : Nat} {now : DT}
    {res : CheckinResult} (h : createCheckin db uid pid now = (db', .ok res)) :
    ∃ p u, findPlace db pid = some p ∧ p.status = true ∧
      hasCheckedInThisMonth db uid pid now = false ∧ findUser db uid = some u ∧
      res = ⟨⟨db.nextId, uid, pid, now⟩, ⟨10, 5, Int.fdiv (u.totalExp + 5) 100 + 1⟩⟩ ∧
      db' = checkinPost db uid pid now u := by
  cases hpl : findPlace db pid with
  | none => unfold createCheckin at h; rw [hpl] at h; exact absurd h (by simp)
  | some p =>
    cases hact : p.status with
    | false =>
      unfold createCheckin at h; rw [hpl] at h
      simp only [hact] at h
      exact absurd h (by simp)
    | true =>
      cases hno : hasCheckedInThisMonth db uid pid now with
      | true =>
        unfold createCheckin at h; rw [hpl] at h
        simp only [hact, hno] at h
        exact absurd h (by simp)
      | false =>
        cases hu : findUser db uid with
        | none =>
          unfold createCheckin at h; rw [hpl] at h
          simp only [hact, hno, hu] at h
          exact absurd h (by simp)
        | some u =>
          rw [createCheckin_ok_intro hpl hact hno hu] at h
          obtain ⟨h1, h2⟩ := Prod.mk.injEq .. ▸ h
          obtain rfl := (Except.ok.injEq .. ▸ h2).symm
          exact ⟨p, u, rfl, hact, rfl, rfl, rfl, h1.symm⟩

end Snappie

namespace Snappie

/-- Claim C3 (amended): with the place found and active, `createCheckin`
fails with the already-acted error and creates nothing whenever an existing
checkin row of the same (user, place) has `created_at` inside the queried
window [first of month 00:00:00.000, last day of month 23:59:59.000] of the
current time (the window misses the final 999 ms of the month); and a
check-in by the same user at the same place succeeds in a following
calendar month, when every prior (user, place) row dates from an earlier
calendar month. -/
theorem claim_C3_amended :
    (∀ (db : DB) (uid pid : Nat) (now : DT) (p : PlaceRow),
      findPlace db pid = some p → p.status = true →
      (∃ c ∈ db.checkins, c.user_id = uid ∧ c.place_id = pid ∧
        dtLe (startOfMonth now) c.created_at = true ∧
        dtLe c.created_at (endOfMonth now) = true) →
      createCheckin db uid pid now = (db, .error .alreadyCheckedInThisMonth)) ∧
    (∀ (db : DB) (uid pid : Nat) (now : DT) (p : PlaceRow) (u : UserRow),
      findPlace db pid = some p → p.status = true → findUser db uid = some u →
      (∀ c ∈ db.checkins, c.user_id = uid → c.place_id = pid →
        c.created_at.Valid ∧ (c.created_at.year < now.year ∨
          (c.created_at.year = now.year ∧ c.created_at.month < now.month))) →
      ∃ db' res, createCheckin db uid pid now = (db', .ok res)) := by
  constructor
  · intro db uid pid now p hpl hact hex
    have hwin : hasCheckedInThisMonth db uid pid now = true := by
      apply List.any_eq_true.mpr
      obtain ⟨c, hc, h1, h2, h3, h4⟩ := hex
      exact ⟨c, hc, by simp [h1, h2, h3, h4]⟩
    unfold createCheckin
    rw [hpl]
    simp only [hact, Bool.not_true, Bool.false_eq_true, if_false, hwin, if_true]
  · intro db uid pid now p u hpl hact hu hprev
    have hno : hasCheckedInThisMonth db uid pid now = false := by
      apply List.any_eq_false.mpr
      intro c hc
      simp only [Bool.and_eq_true, beq_iff_eq, not_and]
      intro hids hle2
      obtain ⟨⟨hcu, hcp⟩, hle1⟩ := hids
      obtain ⟨hval, hbefore⟩ := hprev c hc hcu hcp
      have hlt := stamp_lt_startOfMonth hval hbefore
      simp only [dtLe, decide_eq_true_eq] at hle1
      omega
    exact ⟨_, _, createCheckin_ok_intro hpl hact hno hu⟩

/-- Concrete instantiation of the amended C3 theorem: a second check-in in
the same January fails and changes nothing, and user 1's February check-in
at the same place succeeds despite the January row. -/
theorem claim_C3_witness :
    createCheckin dbMonthMid 1 1 nowJanLater = (dbMonthMid, .error .alreadyCheckedInThisMonth) ∧
    ∃ db' res, createCheckin dbMonthEdge 1 1 nowFebruary = (db', .ok res) :=
  ⟨claim_C3_amended.1 dbMonthMid 1 1 nowJanLater
      { id := 1, coinReward := 7, expReward := 3 } (by rfl) (by rfl) (by decide),
    claim_C3_amended.2 dbMonthEdge 1 1 nowFebruary
      { id := 1, coinReward := 7, expReward := 3 } { id := 1 } (by rfl) (by rfl) (by rfl)
      (by decide)⟩

end Snappie

namespace Snappie

/-- The row found by `findPlace` carries the looked-up id. -/
theorem findPlace_id {db : DB} {v : Nat} {p : PlaceRow} (h : findPlace db v = some p) :
    p.id = v := by
  have := List.find?_some h
  simpa using this

/-- `findUser` after a successful `createCheckin`, on any user id. -/
theorem checkinPost_findUser (db : DB) (uid pid : Nat) (now : DT) (u : UserRow) (v : Nat) :
    findUser (checkinPost db uid pid now u) v =
      (findUser db v).map (fun w => if w.id == uid then
        { w with totalCoin := u.totalCoin + 10, totalExp := u.totalExp + 5,
                 totalCheckin := u.totalCheckin + 1 } else w) := by
  have h1 : findUser (checkinPost db uid pid now u) v =
      findUser (updateUser { db with checkins := db.checkins ++ [⟨db.nextId, uid, pid, now⟩],
                                     nextId := db.nextId + 1 } uid
        (fun w => { w with totalCoin := u.totalCoin + 10, totalExp := u.totalExp + 5,
                           totalCheckin := u.totalCheckin + 1 })) v := rfl
  rw [h1, findUser_updateUser _ uid v
      (fun w => { w with totalCoin := u.totalCoin + 10, totalExp := u.totalExp + 5,
                         totalCheckin := u.totalCheckin + 1 }) (fun w => rfl)]
  rfl

end Snappie

namespace Snappie

end Snappie

namespace Snappie

/-- Claim C6, failing-input evaluation: user 1's fresh rating-5 review at
an active place passes every guard, yet `createReview` fails with the
notNull violation on the payout's ledger insert (its amount is the
undefined `place.coin_reward`) and the rollback leaves the place, the
review table and the ledger untouched — `avgRating` is never recomputed by
`createReview`.  The active-only recomputation the claim describes,
including its scenario, is performed by the review service's
`updatePlaceStatistics`: over active ratings [4,5,3] it stores 4.00 and
count 3, and after the soft delete of the rating-3 review it stores 4.50
and count 2. -/
theorem claim_C6_payout_bug_eval :
    createReview dbInactiveReview 1 1 5 nowReview
      = (dbInactiveReview, .error .coinTxnAmountNotNull) ∧
    (findPlace (updatePlaceStatistics dbRatingScenario 1) 1).map PlaceRow.avgRating
      = some 4 ∧
    (findPlace (updatePlaceStatistics dbRatingScenario 1) 1).map PlaceRow.totalReview
      = some 3 ∧
    (findPlace ((deleteReview dbRatingScenario 13 3).1) 1).map PlaceRow.avgRating
      = some (9 / 2 : Rat) ∧
    (findPlace ((deleteReview dbRatingScenario 13 3).1) 1).map PlaceRow.totalReview
      = some 2 := by
  refine ⟨by decide, ?_, by rfl, ?_, by rfl⟩
  · have h : (findPlace (updatePlaceStatistics dbRatingScenario 1) 1).map PlaceRow.avgRating
        = some (round2 (((12 : Int) : Rat) / ((3 : Nat) : Rat))) := rfl
    rw [h]
    norm_num [round2]
  · have h : (findPlace ((deleteReview dbRatingScenario 13 3).1) 1).map PlaceRow.avgRating
        = some (round2 (((9 : Int) : Rat) / ((2 : Nat) : Rat))) := rfl
    rw [h]
    norm_num [round2]

/-- Claim C8: a user with zero coins checking in at an active place (not yet
visited this window) succeeds; the balance becomes 10, exactly one coin
ledger entry of +10 with causal reference (Checkin, new checkin id) is
appended, and `totalCheckin` increments by one. -/
theorem claim_C8_checkin_reward :
    ∀ (db : DB) (uid pid : Nat) (now : DT) (u : UserRow) (p : PlaceRow),
      findUser db uid = some u → u.totalCoin = 0 →
      findPlace db pid = some p → p.status = true →
      hasCheckedInThisMonth db uid pid now = false →
      ∃ db' res, createCheckin db uid pid now = (db', .ok res) ∧
        res.checkin.id = db.nextId ∧
        res.rewards.coins_earned = 10 ∧
        findUser db' uid = some { u with totalCoin := 10, totalExp := u.totalExp + 5,
                                         totalCheckin := u.totalCheckin + 1 } ∧
        db'.coinTxns = db.coinTxns ++
          [{ user_id := uid, amount := 10, related_to_id := res.checkin.id,
             related_to_type := "Checkin" }] ∧
        db'.checkins = db.checkins ++ [⟨res.checkin.id, uid, pid, now⟩] := by
  intro db uid pid now u p hu hc hpl hact hno
  refine ⟨checkinPost db uid pid now u, _,
    createCheckin_ok_intro hpl hact hno hu, rfl, rfl, ?_, rfl, rfl⟩
  rw [checkinPost_findUser, hu]
  have hid := findUser_id hu
  simp [hid, hc]

/-- Concrete instantiation of C8: user 1 with zero coins checks in at active
place 1 (whose configured rewards are 10/20) and ends with 10 coins, one
+10 ledger row and `totalCheckin` 1. -/
theorem claim_C8_witness :
    ∃ db' res, createCheckin dbZeroCoins 1 1 nowReview = (db', .ok res) ∧
      res.checkin.id = dbZeroCoins.nextId ∧
      res.rewards.coins_earned = 10 ∧
      findUser db' 1 = some { id := 1, totalCoin := 10, totalExp := 5, totalCheckin := 1 } ∧
      db'.coinTxns = dbZeroCoins.coinTxns ++
        [{ user_id := 1, amount := 10, related_to_id := res.checkin.id,
           related_to_type := "Checkin" }] ∧
      db'.checkins = dbZeroCoins.checkins ++ [⟨res.checkin.id, 1, 1, nowReview⟩] :=
  claim_C8_checkin_reward dbZeroCoins 1 1 nowReview { id := 1 }
    { id := 1, coinReward := 10, expReward := 20 } (by rfl) (by rfl) (by rfl) (by rfl)
    (by rfl)

/-- Claim C9, counterexample to the review contrast: at an active place
whose configured `coinReward` is 10, a fresh review by user 1 passes every
guard, yet the call fails with the notNull violation on the payout ledger
insert and writes no ledger entry at all — reviews do not pay the place's
configured rewards, because the source reads the undefined
`place.coin_reward`/`place.exp_reward` instead of the
`coinReward`/`expReward` attributes. -/
theorem claim_C9_counterexample :
    (findPlace dbZeroCoins 1).map PlaceRow.coinReward = some 10 ∧
    createReview dbZeroCoins 1 1 5 nowReview
      = (dbZeroCoins, .error .coinTxnAmountNotNull) ∧
    ((createReview dbZeroCoins 1 1 5 nowReview).1).coinTxns = dbZeroCoins.coinTxns ∧
    ((createReview dbZeroCoins 1 1 5 nowReview).1).expTxns = dbZeroCoins.expTxns := by
  decide

/-- Claim C9 (amended): every successful `createCheckin` awards exactly 10
coins and 5 experience, hard-coded independently of the place's configured
`coinReward`/`expReward` (no hypothesis on the place row constrains the
payout), and the returned rewards carry `new_level = floor(newTotalExp/100)+1`;
the claimed contrast with reviews does not hold: `createReview` reads the
undefined `place.coin_reward`/`place.exp_reward`, so its payout always
throws and every `createReview` call returns an error with the state
unchanged — reviews never pay out. -/
theorem claim_C9_amended :
    (∀ (db db' : DB) (uid pid : Nat) (now : DT) (res : CheckinResult),
      createCheckin db uid pid now = (db', .ok res) →
      res.rewards.coins_earned = 10 ∧ res.rewards.exp_earned = 5 ∧
      db'.coinTxns = db.coinTxns ++ [⟨uid, 10, res.checkin.id, "Checkin"⟩] ∧
      db'.expTxns = db.expTxns ++ [⟨uid, 5, res.checkin.id, "Checkin"⟩] ∧
      (∃ u, findUser db uid = some u ∧
        res.rewards.new_level = Int.fdiv (u.totalExp + 5) 100 + 1)) ∧
    (∀ (db : DB) (uid pid : Nat) (rating : Int) (now : DT),
      ∃ e, createReview db uid pid rating now = (db, .error e)) := by
  constructor
  · intro db db' uid pid now res h
    obtain ⟨p, u, hpl, hact, hno, hu, hres, hdb⟩ := createCheckin_ok_elim h
    subst hres; subst hdb
    exact ⟨rfl, rfl, rfl, rfl, u, hu, rfl⟩
  · intro db uid pid rating now
    unfold createReview
    cases hpl : findPlace db pid with
    | none => exact ⟨.placeNotFound, rfl⟩
    | some place =>
      cases hst : place.status with
      | false => exact ⟨.placeNotActive, by simp [hst]⟩
      | true =>
        cases hmon : hasReviewedInThisMonth db uid pid now with
        | true => exact ⟨.alreadyReviewedThisMonth, by simp [hst, hmon]⟩
        | false => exact ⟨addCoinsUndefinedAmount db uid, by simp [hst, hmon]⟩

/-- Concrete instantiation of the amended C9 theorem: the check-in at a
place configured with rewards 10/20 pays 10 coins and 5 exp anyway, while
a review attempt at a place configured with rewards 7/3 fails without
paying anything. -/
theorem claim_C9_witness :
    (∃ db' res, createCheckin dbZeroCoins 1 1 nowReview = (db', .ok res) ∧
      res.rewards.coins_earned = 10 ∧ res.rewards.exp_earned = 5 ∧
      db'.expTxns = dbZeroCoins.expTxns ++ [⟨1, 5, res.checkin.id, "Checkin"⟩]) ∧
    (∃ e, createReview dbInactiveReview 1 1 5 nowReview = (dbInactiveReview, .error e)) := by
  constructor
  · refine ⟨_, _, createCheckin_ok_intro (p := { id := 1, coinReward := 10, expReward := 20 })
      (u := { id := 1 }) (by rfl) (by rfl) (by rfl) (by rfl), ?_⟩
    obtain ⟨h1, h2, h3, h4, _⟩ := claim_C9_amended.1 dbZeroCoins _ 1 1 nowReview _
      (createCheckin_ok_intro (p := { id := 1, coinReward := 10, expReward := 20 })
        (u := { id := 1 }) (by rfl) (by rfl) (by rfl) (by rfl))
    exact ⟨h1, h2, h4⟩
  · exact claim_C9_amended.2 dbInactiveReview 1 1 5 nowReview

end Snappie

namespace Snappie

/-- Success of `grantAchievement` determines every component of the result. -/
theorem grantAchievement_ok_elim {db db' : DB} {uid aid : Nat} {row : UserAchievementRow}
    (h : grantAchievement db uid aid = (db', .ok row)) :
    ∃ u a, findUser db uid = some u ∧ findAchievement db aid = some a ∧
      (db.userAchievements.any fun r =>
        r.user_id == uid && r.achievement_id == aid && r.status) = false ∧
      0 < a.coin_reward ∧ row = ⟨uid, aid, true⟩ ∧ db' = grantPost db uid aid a := by
  cases hfu : findUser db uid with
  | none => unfold grantAchievement at h; rw [hfu] at h; exact absurd h (by simp)
  | some u =>
    cases hfa : findAchievement db aid with
    | none => unfold grantAchievement at h; rw [hfu, hfa] at h; exact absurd h (by simp)
    | some a =>
      unfold grantAchievement at h
      rw [hfu, hfa] at h
      cases hany : (db.userAchievements.any fun r =>
          r.user_id == uid && r.achievement_id == aid && r.status) with
      | true =>
        simp only [hany] at h
        exact absurd h (by simp)
      | false =>
        simp only [hany, Bool.false_eq_true, if_false] at h
        cases haddc : addCoins
            (updateUser db uid (fun w => { w with totalAchievement := w.totalAchievement + 1 }))
            uid a.coin_reward aid "Achievement" with
        | mk base2 r1 =>
          rw [haddc] at h
          cases r1 with
          | error e => exact absurd h (by simp)
          | ok tc =>
            dsimp only at h
            obtain ⟨hcpos, hcsome, htc, hb2⟩ := addCoins_ok_elim haddc
            subst hb2; subst htc
            obtain ⟨h1, h2⟩ := Prod.mk.injEq .. ▸ h
            obtain rfl := (Except.ok.injEq .. ▸ h2).symm
            refine ⟨u, a, rfl, rfl, rfl, hcpos, rfl, ?_⟩
            rw [← h1]
            rfl

/-- Claim C4: after a successful `grantAchievement`, exactly one active
grant row exists for the (user, achievement) pair, and a re-invocation for
the same pair fails with the already-granted error while leaving the state
(rows, counters, ledger, payouts) completely unchanged. -/
theorem claim_C4_grant_idempotent :
    ∀ (db db1 : DB) (uid aid : Nat) (row : UserAchievementRow),
      grantAchievement db uid aid = (db1, .ok row) →
      countActiveGrants db1 uid aid = 1 ∧
      grantAchievement db1 uid aid = (db1, .error .alreadyHaveAchievement) := by
  intro db db1 uid aid row h
  obtain ⟨u, a, hfu, hfa, hany, hpos, hrow, hdb⟩ := grantAchievement_ok_elim h
  subst hdb; subst hrow
  have hua : (grantPost db uid aid a).userAchievements
      = db.userAchievements ++ [⟨uid, aid, true⟩] := rfl
  constructor
  · unfold countActiveGrants
    rw [hua, List.filter_append]
    have hnil : db.userAchievements.filter (fun r =>
        r.user_id == uid && r.achievement_id == aid && r.status) = [] := by
      rw [List.filter_eq_nil_iff]
      intro r hr
      have := List.any_eq_false.mp hany r hr
      simpa using this
    rw [hnil]
    simp
  · have hu1 : findUser (grantPost db uid aid a) uid =
        some { { u with totalAchievement := u.totalAchievement + 1 } with
               totalCoin := { u with totalAchievement := u.totalAchievement + 1 }.totalCoin
                 + a.coin_reward } := by
      have hid := findUser_id hfu
      have hstep : findUser (grantPost db uid aid a) uid =
          findUser (updateUser (updateUser db uid (fun w =>
              { w with totalAchievement := w.totalAchievement + 1 })) uid
            (fun w => { w with totalCoin := w.totalCoin + a.coin_reward })) uid := rfl
      rw [hstep,
        findUser_updateUser _ uid uid
          (fun w => { w with totalCoin := w.totalCoin + a.coin_reward }) (fun w => rfl),
        findUser_updateUser _ uid uid
          (fun w => { w with totalAchievement := w.totalAchievement + 1 }) (fun w => rfl),
        hfu]
      simp [hid]
    have hfa1 : findAchievement (grantPost db uid aid a) aid = some a := by
      have hstep : findAchievement (grantPost db uid aid a) aid
          = findAchievement db aid := rfl
      rw [hstep, hfa]
    have hany1 : ((grantPost db uid aid a).userAchievements.any fun r =>
        r.user_id == uid && r.achievement_id == aid && r.status) = true := by
      apply List.any_eq_true.mpr
      refine ⟨⟨uid, aid, true⟩, ?_, by simp⟩
      rw [hua]
      simp
    unfold grantAchievement
    rw [hu1, hfa1]
    simp only [hany1, if_true]

/-- Concrete instantiation of C4 on `dbGrant` (achievement 2 paying 5
coins): the first grant succeeds, after which exactly one active row
exists and the repeat invocation fails without changing anything. -/
theorem claim_C4_witness :
    countActiveGrants (grantAchievement dbGrant 1 2).1 1 2 = 1 ∧
    grantAchievement (grantAchievement dbGrant 1 2).1 1 2 =
      ((grantAchievement dbGrant 1 2).1, .error .alreadyHaveAchievement) :=
  claim_C4_grant_idempotent dbGrant (grantAchievement dbGrant 1 2).1 1 2
    ⟨1, 2, true⟩ (by rfl)

end Snappie

namespace Snappie

/-- Claim C10 (amended): `toggleFollow` computes the counts it returns by
re-applying the ±1 delta to the instance values that `update` has already
mutated: unfollow stores `max 0 (previous − 1)` and returns that stored
value minus one (so a stored 0 yields −1), and follow stores
`previous + 1` and returns that stored value plus one. -/
theorem claim_C10_amended :
    (∀ (db : DB) (a b : Nat) (ua ub : UserRow),
      (a == b) = false → findUser db a = some ua → findUser db b = some ub →
      (db.userFollows.any fun f => f.follower_id == a && f.following_id == b) = true →
      ∃ db', toggleFollow db a b =
          (db', .ok ⟨false, max 0 (ub.totalFollower - 1) - 1,
                     max 0 (ua.totalFollowing - 1) - 1⟩) ∧
        (findUser db' b).map UserRow.totalFollower = some (max 0 (ub.totalFollower - 1)) ∧
        (findUser db' a).map UserRow.totalFollowing
          = some (max 0 (ua.totalFollowing - 1))) ∧
    (∀ (db : DB) (a b : Nat) (ua ub : UserRow),
      (a == b) = false → findUser db a = some ua → findUser db b = some ub →
      (db.userFollows.any fun f => f.follower_id == a && f.following_id == b) = false →
      ∃ db', toggleFollow db a b =
          (db', .ok ⟨true, ub.totalFollower + 1 + 1, ua.totalFollowing + 1 + 1⟩) ∧
        (findUser db' b).map UserRow.totalFollower = some (ub.totalFollower + 1) ∧
        (findUser db' a).map UserRow.totalFollowing = some (ua.totalFollowing + 1)) := by
  constructor
  · intro db a b ua ub hab hfa hfb hany
    have hida := findUser_id hfa
    have hidb := findUser_id hfb
    have hne : b ≠ a := by
      intro hcontra
      rw [hcontra] at hab
      simp at hab
    unfold toggleFollow
    simp only [hab, Bool.false_eq_true, if_false, hfa, hfb, hany, if_true]
    refine ⟨_, rfl, ?_, ?_⟩
    · rw [findUser_updateUser _ b b
          (fun w => { w with totalFollower := max 0 (ub.totalFollower - 1) }) (fun w => rfl),
        findUser_updateUser _ a b
          (fun w => { w with totalFollowing := max 0 (ua.totalFollowing - 1) }) (fun w => rfl)]
      have hbase : findUser { db with userFollows := db.userFollows.filter (fun f =>
          !(f.follower_id == a && f.following_id == b)) } b = findUser db b := rfl
      rw [hbase, hfb]
      simp [hidb, hne]
    · rw [findUser_updateUser _ b a
          (fun w => { w with totalFollower := max 0 (ub.totalFollower - 1) }) (fun w => rfl),
        findUser_updateUser _ a a
          (fun w => { w with totalFollowing := max 0 (ua.totalFollowing - 1) }) (fun w => rfl)]
      have hbase : findUser { db with userFollows := db.userFollows.filter (fun f =>
          !(f.follower_id == a && f.following_id == b)) } a = findUser db a := rfl
      rw [hbase, hfa]
      have hne2 : a ≠ b := fun hh => hne hh.symm
      simp [hida, hne2]
  · intro db a b ua ub hab hfa hfb hany
    have hida := findUser_id hfa
    have hidb := findUser_id hfb
    have hne : b ≠ a := by
      intro hcontra
      rw [hcontra] at hab
      simp at hab
    unfold toggleFollow
    simp only [hab, Bool.false_eq_true, if_false, hfa, hfb, hany]
    refine ⟨_, rfl, ?_, ?_⟩
    · rw [findUser_updateUser _ b b
          (fun w => { w with totalFollower := ub.totalFollower + 1 }) (fun w => rfl),
        findUser_updateUser _ a b
          (fun w => { w with totalFollowing := ua.totalFollowing + 1 }) (fun w => rfl)]
      have hbase : findUser { db with userFollows := db.userFollows ++
          [{ follower_id := a, following_id := b }] } b = findUser db b := rfl
      rw [hbase, hfb]
      simp [hidb, hne]
    · rw [findUser_updateUser _ b a
          (fun w => { w with totalFollower := ub.totalFollower + 1 }) (fun w => rfl),
        findUser_updateUser _ a a
          (fun w => { w with totalFollowing := ua.totalFollowing + 1 }) (fun w => rfl)]
      have hbase : findUser { db with userFollows := db.userFollows ++
          [{ follower_id := a, following_id := b }] } a = findUser db a := rfl
      rw [hbase, hfa]
      have hne2 : a ≠ b := fun hh => hne hh.symm
      simp [hida, hne2]

/-- Concrete instantiation of the amended C10 theorem: unfollowing a user
whose stored `totalFollower` is 0 returns followerCount −1 while the stored
counter stays 0, and following stores 6 but returns 7. -/
theorem claim_C10_witness :
    (∃ db', toggleFollow dbFollowersZero 1 2 = (db', .ok ⟨false, -1, 1⟩) ∧
      (findUser db' 2).map UserRow.totalFollower = some 0 ∧
      (findUser db' 1).map UserRow.totalFollowing = some 2) ∧
    (∃ db', toggleFollow dbNoFollow 1 2 = (db', .ok ⟨true, 7, 5⟩) ∧
      (findUser db' 2).map UserRow.totalFollower = some 6 ∧
      (findUser db' 1).map UserRow.totalFollowing = some 4) :=
  ⟨claim_C10_amended.1 dbFollowersZero 1 2 { id := 1, totalFollowing := 3 }
      { id := 2, totalFollower := 0 } (by rfl) (by rfl) (by rfl) (by rfl),
    claim_C10_amended.2 dbNoFollow 1 2 { id := 1, totalFollowing := 3 }
      { id := 2, totalFollower := 5 } (by rfl) (by rfl) (by rfl) (by rfl)⟩

end Snappie
